import Mathlib

/-!
Verification of `rolling_resistance_calculator.py`.

A shallow embedding of the program's core: the physics computation
(`compute_result`), the formatter (`format_value`), the unique path resolver
(`get_unique_filename`), the Excel append / create / read operations, the CSV
mirror regeneration (`on_go_to_excel`), the plot row selection and grouping
(`on_plot_pressure_vs_crr`), and the save operation (`on_save_to_list`).

Python floats are modelled by exact rationals (`ℚ`); `math.pi` is modelled by
`pi_val`, the exact rational value of the IEEE-754 double `math.pi`.
Python `None` is modelled by `Option.none`; a present cell or dict value is a
`PyVal` (string or number).  The file system is modelled explicitly: the one
bound spreadsheet path holds either a readable worksheet or an unreadable blob,
and the bound mirror path holds a list of text lines.
-/

set_option maxRecDepth 4000

namespace RollingResistance

/-- A Python value stored in a dict or spreadsheet cell: a string or a number.
Python `None` is `Option.none` at use sites (`Option PyVal`). -/
inductive PyVal where
  | str (s : String)
  | num (q : ℚ)
deriving DecidableEq

/-- A Python dict with string keys, as an ordered association list
(insertion order preserved, keys unique by construction of `dictInsert`). -/
abbrev Row : Type := List (String × Option PyVal)

/-- `row.get(k, default)` of Python. -/
def dictGetD (r : Row) (k : String) (dflt : Option PyVal) : Option PyVal :=
  (List.lookup k r).getD dflt

/-- `row[k] = v` of Python: overwrite in place if the key exists, else append. -/
def dictInsert (r : Row) (k : String) (v : Option PyVal) : Row :=
  if (r.map Prod.fst).contains k then
    r.map (fun p => if p.1 = k then (k, v) else p)
  else
    r ++ [(k, v)]

/-- `text.replace(",", ".")` of Python: with a one-character pattern this is a
character-wise map. -/
def commaToDot (s : String) : String :=
  String.mk (s.data.map (fun c => if c = ',' then '.' else c))

/-- Whitespace stripped from both ends of a character list. -/
def trimChars (l : List Char) : List Char :=
  ((l.dropWhile Char.isWhitespace).reverse.dropWhile Char.isWhitespace).reverse

/-- Python `text.strip()`. -/
def pyStrip (s : String) : String :=
  String.mk (trimChars s.data)

/-- Split a character list at every separator position, where a separator is
any character satisfying `p`; `n` separators yield `n + 1` (possibly empty)
chunks. -/
def splitAnyP (p : Char → Bool) : List Char → List (List Char)
  | [] => [[]]
  | c :: cs =>
    let r := splitAnyP p cs
    if p c then [] :: r
    else
      match r with
      | [] => [[c]]
      | h :: t => (c :: h) :: t

/-- The exact rational value of the IEEE-754 double `math.pi`
(`math.pi.as_integer_ratio() == (884279719003555, 281474976710656)`). -/
def pi_val : ℚ := 884279719003555 / 281474976710656

/-- `d = 0.645`, wheel diameter in m (source line 12). -/
def d : ℚ := 645 / 1000

/-- `rpm = 213` (source line 13). -/
def rpm : ℚ := 213

/-- `V_supply = 12` volts (source line 14). -/
def V_supply : ℚ := 12

/-- `g = 9.81` m/s² (source line 15). -/
def g : ℚ := 981 / 100

/-- `l_hang = 0.875` m (source line 18). -/
def l_hang : ℚ := 875 / 1000

/-- `l_reifen = 0.358` m (source line 19). -/
def l_reifen : ℚ := 358 / 1000

/-- `FIELDNAMES`, the fixed column order used everywhere (source lines 22-36). -/
def FIELDNAMES : List String := [
  "Tire name / type",
  "Tire pressure [bar]",
  "Idle currents [A]",
  "Load currents [A]",
  "Mean idle current [A]",
  "Mean load current [A]",
  "Weight on lever [kg]",
  "Effective weight on tire [kg]",
  "Speed [m/s]",
  "P_0 [W]",
  "P_load [W]",
  "P_rr [W]",
  "C_rr"]

/-- The decimal digit characters `'0'..'9'` (used to render numbers). -/
def digitChar10 (n : Nat) : Char :=
  if n = 0 then '0' else if n = 1 then '1' else if n = 2 then '2'
  else if n = 3 then '3' else if n = 4 then '4' else if n = 5 then '5'
  else if n = 6 then '6' else if n = 7 then '7' else if n = 8 then '8'
  else '9'

/-- Decimal digits of `n`, fuelled so that the recursion is structural
(fuel `n+1` always suffices since the argument shrinks by a factor 10). -/
def natDecimalAux : Nat → Nat → List Char
  | 0, _ => []
  | f + 1, n =>
    if n < 10 then [digitChar10 n]
    else natDecimalAux f (n / 10) ++ [digitChar10 (n % 10)]

/-- Decimal representation of a natural number, most significant digit first. -/
def natDecimal (n : Nat) : List Char :=
  natDecimalAux (n + 1) n

/-- Exactly `w` decimal digits of `n`, zero padded on the left
(the fractional part of a fixed-point rendering). -/
def padDigits : Nat → Nat → List Char
  | 0, _ => []
  | w + 1, n => padDigits w (n / 10) ++ [digitChar10 (n % 10)]

/-- Rounding of `x ≥ 0` to an integer, half to even, as Python's fixed-point
float formatting does on the (exact) value being formatted. -/
def roundHalfEven (x : ℚ) : ℤ :=
  let n := ⌊x⌋
  let frac := x - n
  if frac > 1 / 2 then n + 1
  else if frac < 1 / 2 then n
  else if n % 2 = 0 then n else n + 1

/-- Python `f"{x:.{dp}f}"` on our rational model of the float `x`:
sign, integer digits, and (when `dp > 0`) a `'.'` followed by exactly `dp`
fractional digits, rounding half to even. -/
def formatFixed (q : ℚ) (dp : Nat) : String :=
  let scaled := (roundHalfEven (|q| * 10 ^ dp)).toNat
  let ip := scaled / 10 ^ dp
  let fp := scaled % 10 ^ dp
  (if q < 0 then "-" else "") ++ String.mk (natDecimal ip) ++
    (if dp = 0 then "" else "." ++ String.mk (padDigits dp fp))

/-- The `decimal_places` dict of `format_value` (source lines 70-81). -/
def decimal_places : List (String × Nat) := [
  ("Mean idle current [A]", 3),
  ("Mean load current [A]", 3),
  ("Speed [m/s]", 3),
  ("P_0 [W]", 2),
  ("P_load [W]", 2),
  ("P_rr [W]", 2),
  ("C_rr", 6),
  ("Effective weight on tire [kg]", 3),
  ("Weight on lever [kg]", 3),
  ("Tire pressure [bar]", 2)]

/-- `format_value(key, value)` (source lines 64-89): `None` and the empty
string map to `""`; a number is rendered with `decimal_places.get(key, 3)`
fixed decimal places and any `','` replaced by `'.'`; a string has any `','`
replaced by `'.'`. -/
def format_value (key : String) (value : Option PyVal) : String :=
  match value with
  | none => ""
  | some (PyVal.str s) => if s = "" then "" else commaToDot s
  | some (PyVal.num q) =>
    commaToDot (formatFixed q ((List.lookup key decimal_places).getD 3))

/-- Errors a modelled Python operation can raise. -/
inductive PyErr where
  | valueError (msg : String)
  | zeroDivision
deriving DecidableEq

/-- `compute_result(idle_values, load_values, m_hang)` (source lines 92-117).
Division by zero raises `ZeroDivisionError` exactly where Python float
division would (mean of an empty list; zero divisor in the `C_rr` line). -/
def compute_result (idle_values load_values : List ℚ) (m_hang : ℚ) :
    Except PyErr (List (String × Option PyVal)) := do
  let v := pi_val * d * (rpm / 60)
  if idle_values.length = 0 then throw PyErr.zeroDivision
  let I_idle := idle_values.sum / (idle_values.length : ℚ)
  if load_values.length = 0 then throw PyErr.zeroDivision
  let I_load := load_values.sum / (load_values.length : ℚ)
  let m_eff := m_hang * l_hang / l_reifen
  let P0 := V_supply * I_idle
  let P_weighted := V_supply * I_load
  let P_rr := P_weighted - P0
  if m_eff * g * v = 0 then throw PyErr.zeroDivision
  let C_rr := P_rr / (m_eff * g * v)
  pure [
    ("Speed [m/s]", some (PyVal.num v)),
    ("Mean idle current [A]", some (PyVal.num I_idle)),
    ("Mean load current [A]", some (PyVal.num I_load)),
    ("Weight on lever [kg]", some (PyVal.num m_hang)),
    ("Effective weight on tire [kg]", some (PyVal.num m_eff)),
    ("P_0 [W]", some (PyVal.num P0)),
    ("P_load [W]", some (PyVal.num P_weighted)),
    ("P_rr [W]", some (PyVal.num P_rr)),
    ("C_rr", some (PyVal.num C_rr))]

/-- Numeric value of a list of decimal digit characters. -/
def digitsToNat (l : List Char) : Nat :=
  l.foldl (fun a c => 10 * a + (c.toNat - '0'.toNat)) 0

/-- Optional exponent tail of a Python float literal: empty, or `e`/`E`,
an optional sign and a non-empty digit run. -/
def parseExpTail (m : ℚ) (l : List Char) : Option ℚ :=
  match l with
  | [] => some m
  | e :: r =>
    if e = 'e' ∨ e = 'E' then
      let sgn : ℚ := if r.head? = some '-' then -1 else 1
      let r1 := if r.head? = some '+' ∨ r.head? = some '-' then r.tail else r
      let (ds, r2) := r1.span Char.isDigit
      if ds = [] ∨ r2 ≠ [] then none
      else some (m * (10 : ℚ) ^ (sgn.num * digitsToNat ds))
    else none

/-- Python `float(text)` restricted to plain decimal literals: surrounding
whitespace, an optional sign, a mantissa `digits[.digits]` or `.digits`, and
an optional exponent.  (`inf`, `nan` and `_` digit separators never occur in
this program's data and are not modelled.) -/
def parseDecimal (s : String) : Option ℚ :=
  let l := trimChars s.data
  let sgn : ℚ := if l.head? = some '-' then -1 else 1
  let l1 := if l.head? = some '+' ∨ l.head? = some '-' then l.tail else l
  let (ip, r1) := l1.span Char.isDigit
  match r1 with
  | [] => if ip = [] then none else some (sgn * digitsToNat ip)
  | '.' :: r2 =>
    let (fp, r3) := r2.span Char.isDigit
    if ip = [] ∧ fp = [] then none
    else
      parseExpTail
        (sgn * ((digitsToNat ip : ℚ) + (digitsToNat fp : ℚ) / 10 ^ fp.length)) r3
  | _ => if ip = [] then none else parseExpTail (sgn * digitsToNat ip) r1

/-- Fractional decimal digits of `0 ≤ x < 1`, until exact or fuel runs out. -/
def fracDigits : Nat → ℚ → List Char
  | 0, _ => []
  | f + 1, x =>
    if x = 0 then []
    else digitChar10 ⌊x * 10⌋.toNat :: fracDigits f (x * 10 - ⌊x * 10⌋)

/-- Stand-in for Python `str(float)`: sign, integer digits, `'.'` and the
exact fractional expansion (`"0"` when integral, e.g. `str(2.0) == "2.0"`).
Python's shortest-round-trip digit selection is not modelled; this rendering
is not load-bearing for any claim (tire names and pressures are strings). -/
def qRender (q : ℚ) : String :=
  let fr := fracDigits 80 (|q| - ⌊|q|⌋)
  (if q < 0 then "-" else "") ++ String.mk (natDecimal ⌊|q|⌋.toNat) ++ "." ++
    (if fr = [] then "0" else String.mk fr)

/-- Python `str(v)` on a cell or dict value. -/
def pyStr (v : PyVal) : String :=
  match v with
  | PyVal.str s => s
  | PyVal.num q => qRender q

/-- Python `str(v)` on an optional value: `str(None) == "None"`. -/
def pyStrD (v : Option PyVal) : String :=
  match v with
  | none => "None"
  | some w => pyStr w

/-- Python `float(v)` on a present value: the identity on numbers, the
decimal parse on strings; raises `ValueError` on an unparseable string. -/
def pyFloat (v : PyVal) : Option ℚ :=
  match v with
  | PyVal.num q => some q
  | PyVal.str s => parseDecimal s

/-- `parse_float_list(text)` (source lines 52-61): split on whitespace,
replace `','` by `'.'` in each token and parse it; `ValueError` when the text
holds no token or some token fails to parse. -/
def parse_float_list (text : String) : Except PyErr (List ℚ) :=
  let parts :=
    ((splitAnyP Char.isWhitespace (pyStrip text).data).map String.mk).filter
      (· ≠ "")
  if parts = [] then throw (PyErr.valueError "No values entered")
  else parts.mapM (fun p =>
    match parseDecimal (commaToDot p) with
    | some q => pure q
    | none => throw (PyErr.valueError "could not convert string to float"))

/-- An openpyxl cell: a stored value and a style (`none` = default style,
so `has_style` is `style.isSome`; styles are abstract tokens). -/
structure Cell where
  value : Option PyVal
  style : Option Nat
deriving DecidableEq

/-- A worksheet: the dimension counters openpyxl reports and the cell grid
(1-based row and column indices). -/
structure Worksheet where
  maxRow : Nat
  maxCol : Nat
  cell : Nat → Nat → Cell

/-- Store a cell, growing the reported dimensions as openpyxl does. -/
def Worksheet.setCell (ws : Worksheet) (r c : Nat) (cl : Cell) : Worksheet where
  maxRow := max ws.maxRow r
  maxCol := max ws.maxCol c
  cell := fun r' c' => if r' = r ∧ c' = c then cl else ws.cell r' c'

/-- `ws.cell(row=r, column=c, value=v)`: writes the value, keeps the style. -/
def Worksheet.writeValue (ws : Worksheet) (r c : Nat) (v : Option PyVal) :
    Worksheet :=
  ws.setCell r c { ws.cell r c with value := v }

/-- `new_cell._style = template_cell._style`: writes the style, keeps the
value. -/
def Worksheet.setStyle (ws : Worksheet) (r c : Nat) (st : Option Nat) :
    Worksheet :=
  ws.setCell r c { ws.cell r c with style := st }

/-- The fixed fields paired with their 1-based column indices. -/
def fieldCols : List (String × Nat) :=
  FIELDNAMES.zip (List.range' 1 FIELDNAMES.length)

/-- One header cell write (source lines 336-337). -/
def writeHeaderStep (acc : Worksheet) (kc : String × Nat) : Worksheet :=
  acc.writeValue 1 kc.2 (some (PyVal.str kc.1))

/-- Writing the header row (source lines 335-337). -/
def writeHeader (ws : Worksheet) : Worksheet :=
  fieldCols.foldl writeHeaderStep ws

/-- `all(c.value is None for c in ws[1])` (source line 335). -/
def rowOneAllNone (ws : Worksheet) : Bool :=
  (List.range' 1 ws.maxCol).all (fun c => (ws.cell 1 c).value.isNone)

/-- One iteration of the append's per-column loop (source lines 343-349):
write the formatted value at `(newRow, col)` and, when the template cell at
`(tmplRow, col)` has a style, clone it onto the new cell. -/
def writeCellStep (tmplRow newRow : Nat) (last : Row) (acc : Worksheet)
    (kc : String × Nat) : Worksheet :=
  let val := format_value kc.1 (dictGetD last kc.1 (some (PyVal.str "")))
  let acc1 := acc.writeValue newRow kc.2 (some (PyVal.str val))
  let tcell := acc1.cell tmplRow kc.2
  if tcell.style.isSome then acc1.setStyle newRow kc.2 tcell.style else acc1

/-- The per-column loop of the append (source lines 343-349). -/
def writeRowCells (tmplRow newRow : Nat) (last : Row)
    (items : List (String × Nat)) (ws : Worksheet) : Worksheet :=
  items.foldl (writeCellStep tmplRow newRow last) ws

/-- The worksheet mutation of `_append_last_result_to_excel_if_exists`
(source lines 327-351): write the header into an empty sheet, pick the
template row (`2` if `ws.max_row >= 2` else `1`), and write the new row one
cell at a time, cloning each styled template cell's style. -/
def append_row (ws : Worksheet) (last : Row) : Worksheet :=
  let ws1 := if ws.maxRow = 1 ∧ rowOneAllNone ws then writeHeader ws else ws
  let newRow := ws1.maxRow + 1
  let tmplRow := if 2 ≤ ws1.maxRow then 2 else 1
  writeRowCells tmplRow newRow last fieldCols ws1

/-- The content found at the bound spreadsheet path: a workbook openpyxl can
load, or a file `load_workbook` raises on. -/
inductive XFile where
  | good (ws : Worksheet)
  | corrupt

/-- The mutable state of `RollingResistanceApp`: the in-memory record list,
the last calculated result, and the contents of the two bound file paths
(`none` = the file does not exist). -/
structure AppState where
  saved_rows : List Row
  last_result : Option Row
  fs_xlsx : Option XFile
  fs_csv : Option (List String)

/-- `_append_last_result_to_excel_if_exists` (source lines 317-354): a no-op
when there is no last result or no spreadsheet file; on an unreadable file
the raised error is caught and reported, leaving the state unchanged. -/
def append_last_result_to_excel_if_exists (s : AppState) : AppState :=
  match s.last_result with
  | none => s
  | some last =>
    match s.fs_xlsx with
    | none => s
    | some XFile.corrupt => s
    | some (XFile.good ws) =>
      { s with fs_xlsx := some (XFile.good (append_row ws last)) }

/-- The outcome a handler surfaces to the user. -/
inductive SaveOutcome where
  | errorNoResult
  | saved (count : Nat)
deriving DecidableEq

/-- `on_save_to_list` (source lines 356-363): error when nothing was
calculated; otherwise append the last result to the in-memory list, then to
the spreadsheet when that file exists, and report the list length. -/
def on_save_to_list (s : AppState) : AppState × SaveOutcome :=
  match s.last_result with
  | none => (s, SaveOutcome.errorNoResult)
  | some r =>
    let s1 := { s with saved_rows := s.saved_rows ++ [r] }
    let s2 := append_last_result_to_excel_if_exists s1
    (s2, SaveOutcome.saved s2.saved_rows.length)

/-- The style tokens of the two `xlsxwriter` formats (source lines 380-390). -/
def headerStyleTok : Nat := 1

/-- The data-cell format token (source lines 387-390). -/
def cellStyleTok : Nat := 2

/-- The empty sheet a fresh workbook starts from. -/
def emptySheet : Worksheet where
  maxRow := 1
  maxCol := 1
  cell := fun _ _ => { value := none, style := none }

/-- The one-time creation of the spreadsheet from `saved_rows`
(source lines 377-401): a styled header row, then one formatted row per
record in supplied order. -/
def create_from (records : List Row) : Worksheet :=
  let ws0 := fieldCols.foldl
    (fun acc kc =>
      acc.setCell 1 kc.2 { value := some (PyVal.str kc.1),
                           style := some headerStyleTok })
    emptySheet
  (List.enumFrom 2 records).foldl
    (fun acc ri =>
      fieldCols.foldl
        (fun acc2 kc =>
          acc2.setCell ri.1 kc.2
            { value := some (PyVal.str
                (format_value kc.1 (dictGetD ri.2 kc.1 (some (PyVal.str ""))))),
              style := some cellStyleTok })
        acc)
    ws0

/-- The dict built from one spreadsheet row (source lines 418-423):
`row_dict[str(col_name)] = row[i]`, skipping `None` header cells. -/
def buildRowDict (header vals : List (Option PyVal)) : Row :=
  header.enum.foldl
    (fun acc hi =>
      match hi.2 with
      | none => acc
      | some hv => dictInsert acc (pyStr hv) (vals.getD hi.1 (some (PyVal.str ""))))
    []

/-- Reading the spreadsheet's data rows (source lines 411-424 and 467-479):
the header is row 1; rows 2..max_row whose cells are all `None` are skipped;
the rest become dicts keyed by the header names. -/
def read_data_rows (ws : Worksheet) : List Row :=
  let header := (List.range' 1 ws.maxCol).map (fun c => (ws.cell 1 c).value)
  (List.range' 2 (ws.maxRow - 1)).filterMap (fun r =>
    let vals := (List.range' 1 ws.maxCol).map (fun c => (ws.cell r c).value)
    if vals.all Option.isNone then none else some (buildRowDict header vals))

/-- Join character chunks with a separator (the inverse of `splitCh`). -/
def joinCh (sep : Char) : List (List Char) → List Char
  | [] => []
  | [f] => f
  | f :: g :: fs => f ++ sep :: joinCh sep (g :: fs)

/-- Split a character list at every occurrence of a separator. -/
def splitCh (sep : Char) (l : List Char) : List (List Char) :=
  splitAnyP (fun c => c = sep) l

/-- The `csv` module's minimal quoting with delimiter `';'`: a field holding
the delimiter, a quote or a line break is wrapped in double quotes with inner
quotes doubled; every other field is written as is. -/
def csvField (s : String) : String :=
  if s.data.any (fun c => c = ';' ∨ c = '"' ∨ c = '\n' ∨ c = '\r') then
    "\"" ++ String.mk (s.data.foldr
      (fun c acc => if c = '"' then '"' :: '"' :: acc else c :: acc) []) ++ "\""
  else s

/-- One `csv.writer` line with delimiter `';'`. -/
def joinSemi (fields : List String) : String :=
  String.mk (joinCh ';' ((fields.map csvField).map String.data))

/-- Splitting one mirror line back into its `';'`-separated fields. -/
def splitSemi (s : String) : List String :=
  (splitCh ';' s.data).map String.mk

/-- The mirror's header line: `writer.writeheader()` with the fixed field
names (source line 433). -/
def mirrorHeaderLine : String :=
  joinSemi FIELDNAMES

/-- One mirror data line (source lines 434-436): each fixed field's value,
defaulting to `""`, passed through `format_value`. -/
def mirrorRowLine (r : Row) : String :=
  joinSemi (FIELDNAMES.map
    (fun k => format_value k (dictGetD r k (some (PyVal.str "")))))

/-- The full regenerated mirror content (source lines 431-436): the header
line then one line per spreadsheet data row. -/
def mirror_lines (rows : List Row) : List String :=
  mirrorHeaderLine :: rows.map mirrorRowLine

/-- The outcome `on_go_to_excel` surfaces. -/
inductive ExportOutcome where
  | errorNoData
  | errorUnreadable
  | ok
deriving DecidableEq

/-- `on_go_to_excel` (source lines 365-450): bootstrap the spreadsheet from
`saved_rows` when the file does not exist (error when the list is empty);
read the spreadsheet back (abort, mirror untouched, when unreadable); then
overwrite the mirror file with the regenerated content. -/
def on_go_to_excel (s : AppState) : AppState × ExportOutcome :=
  let step1 : Option AppState :=
    match s.fs_xlsx with
    | none =>
      if s.saved_rows = [] then none
      else some { s with fs_xlsx := some (XFile.good (create_from s.saved_rows)) }
    | some _ => some s
  match step1 with
  | none => (s, ExportOutcome.errorNoData)
  | some s1 =>
    match s1.fs_xlsx with
    | some (XFile.good ws) =>
      ({ s1 with fs_csv := some (mirror_lines (read_data_rows ws)) },
        ExportOutcome.ok)
    | _ => (s1, ExportOutcome.errorUnreadable)

/-- The outcome of the plot handler's data-selection phase. -/
inductive PlotErr where
  | unreadable
  | noData
  | noPlottable
deriving DecidableEq

/-- The row-selection phase of `on_plot_pressure_vs_crr`
(source lines 456-490): read the spreadsheet when it exists (aborting when
unreadable); when that produced no rows, fall back to `saved_rows`, erroring
when that list is empty too. -/
def plot_rows (s : AppState) : Except PlotErr (List Row) := do
  let rows ←
    match s.fs_xlsx with
    | none => pure ([] : List Row)
    | some XFile.corrupt => throw PlotErr.unreadable
    | some (XFile.good ws) => pure (read_data_rows ws)
  if rows = [] then
    if s.saved_rows = [] then throw PlotErr.noData
    else pure s.saved_rows
  else pure rows

/-- Append a point to a tire's group, creating the group on first sight
(source lines 521-524); Python dicts preserve insertion order. -/
def groupAppend (groups : List (String × List (ℚ × ℚ))) (name : String)
    (pt : ℚ × ℚ) : List (String × List (ℚ × ℚ)) :=
  if (groups.map Prod.fst).contains name then
    groups.map (fun p => if p.1 = name then (p.1, p.2 ++ [pt]) else p)
  else groups ++ [(name, [pt])]

/-- The per-row step of the grouping loop (source lines 504-524): the tire
name is trimmed and defaulted to `"Unknown tire"`; the pressure text gets
`','` replaced by `'.'` before parsing, the coefficient is parsed as is; a
row whose pressure text is empty, whose coefficient is `None`, or where
either parse raises `ValueError`, is skipped. -/
def groupStep (groups : List (String × List (ℚ × ℚ))) (row : Row) :
    List (String × List (ℚ × ℚ)) :=
  let name0 := pyStrip (pyStrD (dictGetD row "Tire name / type" (some (PyVal.str ""))))
  let name := if name0 = "" then "Unknown tire" else name0
  let pressure_text :=
    commaToDot (pyStrD (dictGetD row "Tire pressure [bar]" (some (PyVal.str ""))))
  let crr_value := dictGetD row "C_rr" none
  if pressure_text = "" ∨ crr_value = none then groups
  else
    match crr_value with
    | none => groups
    | some crr_v =>
      match parseDecimal pressure_text, pyFloat crr_v with
      | some p, some crr => groupAppend groups name (p, crr)
      | _, _ => groups

/-- The grouping loop over all selected rows (source lines 503-524). -/
def tire_groups (rows : List Row) : List (String × List (ℚ × ℚ)) :=
  rows.foldl groupStep []

/-- `on_plot_pressure_vs_crr` up to the data handed to the chart
(source lines 452-537): select rows, group them, error when no group
remains, and sort each group's points by ascending pressure. -/
def on_plot_pressure_vs_crr (s : AppState) :
    Except PlotErr (List (String × List (ℚ × ℚ))) := do
  let rows ← plot_rows s
  let groups := tire_groups rows
  if groups = [] then throw PlotErr.noPlottable
  else pure (groups.map (fun p => (p.1, p.2.mergeSort (fun a b => a.1 ≤ b.1))))

/-- Index of the last occurrence of a character in a list, if any. -/
def lastIdxOf (c : Char) (l : List Char) : Option Nat :=
  l.enum.foldl (fun acc p => if p.2 = c then some p.1 else acc) none

/-- `os.path.splitext` (posix): split before the last `'.'` of the final path
component, unless every character between the last `'/'` and that dot is a
dot (leading dots do not start an extension). -/
def splitext (p : String) : String × String :=
  let l := p.data
  let fIdx := ((lastIdxOf '/' l).map (· + 1)).getD 0
  match lastIdxOf '.' l with
  | none => (p, "")
  | some dotIdx =>
    if fIdx ≤ dotIdx ∧ ((l.drop fIdx).take (dotIdx - fIdx)).any (· ≠ '.') then
      (String.mk (l.take dotIdx), String.mk (l.drop dotIdx))
    else (p, "")

/-- The candidate path `f"{name} ({counter}){ext}"` (source line 46). -/
def candidatePath (name ext : String) (counter : Nat) : String :=
  name ++ " (" ++ String.mk (natDecimal counter) ++ ")" ++ ext

/-- The `while True` loop of `get_unique_filename` (source lines 45-49),
fuelled: `none` means the fuel ran out before a free candidate was found
(the Python loop would still be running). -/
def findCandidate (ex : String → Bool) (name ext : String) :
    Nat → Nat → Option String
  | 0, _ => none
  | fuel + 1, counter =>
    let cand := candidatePath name ext counter
    if ex cand then findCandidate ex name ext fuel (counter + 1)
    else some cand

/-- `get_unique_filename(base_path)` (source lines 39-49) over an abstract
file-existence predicate `ex` (`os.path.exists`): the base path unchanged
when no file exists there, else the first free `name (n)ext` with `n`
counting up from 2. -/
def get_unique_filename (ex : String → Bool) (fuel : Nat) (base : String) :
    Option String :=
  if ex base then
    let ne := splitext base
    findCandidate ex ne.1 ne.2 fuel 2
  else some base

/-- The five text entry fields of the form. -/
structure Entries where
  tire : String
  weight : String
  idle : String
  load : String
  pressure : String

/-- The outcome `on_calculate` surfaces: success, a `ValueError` caught and
shown as an input-error dialog, or an exception that escapes the handler
uncaught (its `except` clause only catches `ValueError`). -/
inductive CalcOutcome where
  | ok
  | inputError (msg : String)
  | uncaught (e : PyErr)
deriving DecidableEq

/-- `on_calculate` (source lines 277-315): parse the three numeric entries
(`ValueError` is caught and reported, state unchanged), run `compute_result`
(whose `ZeroDivisionError` is not caught and escapes), and on success store
the merged dict as the last result. -/
def on_calculate (e : Entries) (s : AppState) : AppState × CalcOutcome :=
  let run : Except PyErr Row := do
    let idle_values ← parse_float_list e.idle
    let load_values ← parse_float_list e.load
    let w_text := pyStrip (commaToDot e.weight)
    if w_text = "" then throw (PyErr.valueError "No weight entered")
    let m_hang ←
      match parseDecimal w_text with
      | some q => pure q
      | none => throw (PyErr.valueError "could not convert string to float")
    let core ← compute_result idle_values load_values m_hang
    pure ([
      ("Tire name / type", some (PyVal.str (pyStrip e.tire))),
      ("Tire pressure [bar]",
        some (PyVal.str (pyStrip (commaToDot e.pressure)))),
      ("Idle currents [A]", some (PyVal.str (pyStrip e.idle))),
      ("Load currents [A]", some (PyVal.str (pyStrip e.load)))] ++ core)
  match run with
  | Except.ok r => ({ s with last_result := some r }, CalcOutcome.ok)
  | Except.error (PyErr.valueError m) => (s, CalcOutcome.inputError m)
  | Except.error err => (s, CalcOutcome.uncaught err)

/-- The existence predicate of the C9 witness: two files on disk. -/
def exWitness : String → Bool := fun p =>
  (["/a/data.xlsx", "/a/data (2).xlsx"] : List String).contains p

/-- A fresh-start state: empty list, no result, neither file exists. -/
def freshState : AppState where
  saved_rows := []
  last_result := none
  fs_xlsx := none
  fs_csv := none

/-- A state whose spreadsheet file exists but is unreadable, with some prior
mirror content. -/
def corruptState : AppState where
  saved_rows := []
  last_result := none
  fs_xlsx := some XFile.corrupt
  fs_csv := some ["old mirror line"]

/-- A spreadsheet whose sheet holds only the styled header row and no data
rows (the state after a user deletes every data row in Excel). -/
def wsHeaderOnly : Worksheet where
  maxRow := 1
  maxCol := 13
  cell := fun r c =>
    if r = 1 ∧ 1 ≤ c ∧ c ≤ 13 then
      { value := some (PyVal.str (FIELDNAMES.getD (c - 1) "")),
        style := some headerStyleTok }
    else { value := none, style := none }

/-- A typical saved record (tire "A", pressure 2.0 bar, coefficient 0.07). -/
def rowA : Row := [
  ("Tire name / type", some (PyVal.str "A")),
  ("Tire pressure [bar]", some (PyVal.str "2.0")),
  ("C_rr", some (PyVal.num (7 / 100)))]

/-- A state where the spreadsheet file exists (header only, zero data rows)
while one record sits in the in-memory list. -/
def headerOnlyState : AppState where
  saved_rows := [rowA]
  last_result := none
  fs_xlsx := some (XFile.good wsHeaderOnly)
  fs_csv := none

/-- A state bound to a freshly created one-record spreadsheet. -/
def oneRowState : AppState where
  saved_rows := []
  last_result := none
  fs_xlsx := some (XFile.good (create_from [rowA]))
  fs_csv := none

/-- A spreadsheet-style row whose coefficient cell uses `','` as decimal
separator. -/
def rowCommaCrr : Row := [
  ("Tire name / type", some (PyVal.str "A")),
  ("Tire pressure [bar]", some (PyVal.str "2.0")),
  ("C_rr", some (PyVal.str "0,07"))]

/-- The same row with `'.'` in the coefficient. -/
def rowDotCrr : Row := [
  ("Tire name / type", some (PyVal.str "A")),
  ("Tire pressure [bar]", some (PyVal.str "2.0")),
  ("C_rr", some (PyVal.str "0.07"))]

instance instDecEqExcept {ε α : Type} [DecidableEq ε] [DecidableEq α] :
    DecidableEq (Except ε α) := fun a b =>
  match a, b with
  | Except.ok x, Except.ok y =>
    if h : x = y then Decidable.isTrue (by rw [h])
    else Decidable.isFalse (by simp [h])
  | Except.error x, Except.error y =>
    if h : x = y then Decidable.isTrue (by rw [h])
    else Decidable.isFalse (by simp [h])
  | Except.ok _, Except.error _ => Decidable.isFalse (by simp)
  | Except.error _, Except.ok _ => Decidable.isFalse (by simp)

/-- The scenario's idle currents `[0.50, 0.51, 0.49]`. -/
def idle0 : List ℚ := [1/2, 51/100, 49/100]

/-- The scenario's load currents `[1.20, 1.22, 1.18]`. -/
def load0 : List ℚ := [6/5, 61/50, 59/50]

/-- The form entries of the C8 witness: weight entered as `"0"`. -/
def entriesZeroWeight : Entries where
  tire := "A"
  weight := "0"
  idle := "1 1"
  load := "2"
  pressure := "2.0"

/-- The number of characters after the rightmost `'.'` of a rendered value
(the count of decimal places shown). -/
def postDotLen (s : String) : Nat :=
  (s.data.reverse.takeWhile (fun c => c ≠ '.')).length

/-! ## Helper lemmas -/

theorem exceptBind_ok {ε α β : Type} (a : α) (f : α → Except ε β) :
    (Except.ok a : Except ε α) >>= f = f a := rfl

theorem exceptBind_err {ε α β : Type} (e : ε) (f : α → Except ε β) :
    (Except.error e : Except ε α) >>= f = Except.error e := rfl

theorem exceptThrow {ε α : Type} (e : ε) :
    (throw e : Except ε α) = Except.error e := rfl

theorem exceptPure {ε α : Type} (a : α) :
    (pure a : Except ε α) = Except.ok a := rfl

theorem findCandidate_not_exists (ex : String → Bool) (name ext : String) :
    ∀ fuel counter c, findCandidate ex name ext fuel counter = some c →
      ex c = false := by
  intro fuel
  induction fuel with
  | zero => intro counter c h; simp [findCandidate] at h
  | succ f ih =>
    intro counter c h
    unfold findCandidate at h
    by_cases hex : ex (candidatePath name ext counter)
    · rw [if_pos hex] at h
      exact ih _ _ h
    · rw [if_neg hex] at h
      cases h
      simpa using hex

theorem findCandidate_first (ex : String → Bool) (name ext : String) :
    ∀ fuel counter c, findCandidate ex name ext fuel counter = some c →
      ∃ n, counter ≤ n ∧ c = candidatePath name ext n ∧
        ex (candidatePath name ext n) = false ∧
        ∀ m, counter ≤ m → m < n → ex (candidatePath name ext m) = true := by
  intro fuel
  induction fuel with
  | zero => intro counter c h; simp [findCandidate] at h
  | succ f ih =>
    intro counter c h
    unfold findCandidate at h
    by_cases hex : ex (candidatePath name ext counter)
    · rw [if_pos hex] at h
      obtain ⟨n, hn1, hn2, hn3, hn4⟩ := ih _ _ h
      refine ⟨n, by omega, hn2, hn3, ?_⟩
      intro m hm1 hm2
      rcases Nat.eq_or_lt_of_le hm1 with heq | hlt
      · rw [← heq]; exact hex
      · exact hn4 m hlt hm2
    · rw [if_neg hex] at h
      cases h
      exact ⟨counter, le_refl _, rfl, by simpa using hex, fun m hm1 hm2 => by omega⟩

theorem get_unique_filename_not_exists (ex : String → Bool) (fuel : Nat)
    (base c : String) (h : get_unique_filename ex fuel base = some c) :
    ex c = false := by
  unfold get_unique_filename at h
  by_cases hex : ex base
  · rw [if_pos hex] at h
    exact findCandidate_not_exists ex _ _ fuel 2 c h
  · rw [if_neg hex] at h
    cases h
    simpa using hex

/-! ## C9: the Unique Path Resolver -/

/-- C9: `get_unique_filename` returns the base path unchanged when no file
exists at it; otherwise the first candidate `name (n)ext` with `n` counting
up from 2 at which no file exists (every earlier candidate exists).  The
returned path never exists, and it is computed by a pure function of the
existence predicate, so re-resolving without creating a file gives the same
answer, while re-resolving after creating a file at the resolved path yields
a different path. -/
theorem C9_unique_path_resolver (ex : String → Bool) (fuel : Nat)
    (base c : String) (h : get_unique_filename ex fuel base = some c) :
    ex c = false ∧
    (ex base = false → c = base) ∧
    (ex base = true →
      ∃ n, 2 ≤ n ∧ c = candidatePath (splitext base).1 (splitext base).2 n ∧
        ex (candidatePath (splitext base).1 (splitext base).2 n) = false ∧
        ∀ m, 2 ≤ m → m < n →
          ex (candidatePath (splitext base).1 (splitext base).2 m) = true) ∧
    (∀ fuel' c',
      get_unique_filename (fun p => p = c || ex p) fuel' base = some c' →
      c' ≠ c) := by
  refine ⟨get_unique_filename_not_exists ex fuel base c h, ?_, ?_, ?_⟩
  · intro hex
    unfold get_unique_filename at h
    rw [if_neg (by simp [hex])] at h
    cases h
    rfl
  · intro hex
    unfold get_unique_filename at h
    rw [if_pos hex] at h
    exact findCandidate_first ex _ _ fuel 2 c h
  · intro fuel' c' h'
    intro hcc
    have h1 : (fun p => p = c || ex p) c' = false :=
      get_unique_filename_not_exists _ fuel' base c' h'
    simp only [hcc] at h1
    simp at h1

/-- C9 witness: with `data.xlsx` and `data (2).xlsx` existing, the resolver
returns `data (3).xlsx`, which does not exist. -/
theorem C9_unique_path_resolver_witness :
    get_unique_filename exWitness 10 "/a/data.xlsx" = some "/a/data (3).xlsx" ∧
    exWitness "/a/data (3).xlsx" = false :=
  ⟨by decide, (C9_unique_path_resolver exWitness 10 "/a/data.xlsx"
    "/a/data (3).xlsx" (by decide)).1⟩

/-! ## C10: Save to List before any Calculate -/

/-- C10: when no last result exists, `on_save_to_list` reports an error and
leaves the state (in-memory list and both files) unchanged, and the internal
Excel-append helper is a no-op. -/
theorem C10_save_without_result (s : AppState) (h : s.last_result = none) :
    on_save_to_list s = (s, SaveOutcome.errorNoResult) ∧
    append_last_result_to_excel_if_exists s = s := by
  constructor
  · unfold on_save_to_list
    rw [h]
  · unfold append_last_result_to_excel_if_exists
    rw [h]

/-- C10 witness: the theorem applied to the fresh-start state. -/
theorem C10_save_without_result_witness :
    on_save_to_list freshState = (freshState, SaveOutcome.errorNoResult) ∧
    append_last_result_to_excel_if_exists freshState = freshState :=
  C10_save_without_result freshState rfl

/-! ## C7: a failed spreadsheet read aborts the export before the mirror -/

/-- C7: when the spreadsheet file exists but cannot be read, the export
operation reports the failure and returns with the whole state — in
particular the mirror file's prior content — unchanged; the mirror is never
opened for writing before the read has succeeded. -/
theorem C7_export_aborts_on_unreadable (s : AppState)
    (h : s.fs_xlsx = some XFile.corrupt) :
    on_go_to_excel s = (s, ExportOutcome.errorUnreadable) ∧
    (on_go_to_excel s).1.fs_csv = s.fs_csv := by
  have h1 : on_go_to_excel s = (s, ExportOutcome.errorUnreadable) := by
    simp [on_go_to_excel, h]
  exact ⟨h1, by rw [h1]⟩

/-- C7 witness: on the unreadable-spreadsheet state the export fails and the
prior mirror content survives. -/
theorem C7_export_aborts_on_unreadable_witness :
    on_go_to_excel corruptState = (corruptState, ExportOutcome.errorUnreadable) ∧
    (on_go_to_excel corruptState).1.fs_csv = some ["old mirror line"] :=
  ⟨(C7_export_aborts_on_unreadable corruptState rfl).1,
    (C7_export_aborts_on_unreadable corruptState rfl).2⟩

/-! ## C2: authority of the spreadsheet for plotting -/

/-- C2 (amended): when the spreadsheet file exists and holds at least one
non-empty data row, the plotted row set is exactly the spreadsheet's
non-empty data rows; the in-memory record list is consulted exactly when no
spreadsheet file exists, or when the spreadsheet has no non-empty data rows
(the code's fallback `if not rows`). -/
theorem C2_plot_authority (s s' : AppState) (ws : Worksheet)
    (h : s.fs_xlsx = some (XFile.good ws)) (h' : s'.fs_xlsx = none) :
    (read_data_rows ws ≠ [] → plot_rows s = Except.ok (read_data_rows ws)) ∧
    (read_data_rows ws = [] → s.saved_rows ≠ [] →
      plot_rows s = Except.ok s.saved_rows) ∧
    (read_data_rows ws = [] → s.saved_rows = [] →
      plot_rows s = Except.error PlotErr.noData) ∧
    (s'.saved_rows ≠ [] → plot_rows s' = Except.ok s'.saved_rows) := by
  refine ⟨?_, ?_, ?_, ?_⟩
  · intro hne
    simp [plot_rows, h, hne]
    rfl
  · intro hemp hsv
    simp [plot_rows, h, hemp, hsv]
    rfl
  · intro hemp hsv
    simp [plot_rows, h, hemp, hsv]
    rfl
  · intro hsv
    simp [plot_rows, h', hsv]
    rfl

/-- C2 counterexample: the spreadsheet file exists, its non-empty data row
set is empty, and the plot operation consults the in-memory list anyway,
plotting `[rowA]` — the claim says the in-memory list is consulted only when
no spreadsheet file exists, and that the plotted row set equals the
spreadsheet's (empty) data row set. -/
theorem C2_plot_authority_counterexample :
    headerOnlyState.fs_xlsx = some (XFile.good wsHeaderOnly) ∧
    read_data_rows wsHeaderOnly = [] ∧
    plot_rows headerOnlyState = Except.ok [rowA] :=
  ⟨rfl, rfl, rfl⟩

/-- C2 witness: with a spreadsheet holding one data row, the plot reads
exactly the spreadsheet's rows. -/
theorem C2_plot_authority_witness :
    read_data_rows (create_from [rowA]) ≠ [] ∧
    plot_rows oneRowState = Except.ok (read_data_rows (create_from [rowA])) :=
  ⟨by decide,
    (C2_plot_authority oneRowState freshState (create_from [rowA]) rfl rfl).1
      (by decide)⟩

/-! ## C3: parsing and filtering in the Series Grouper -/

theorem commaToDot_idem (s : String) :
    commaToDot (commaToDot s) = commaToDot s := by
  unfold commaToDot
  congr 1
  rw [List.map_map]
  apply List.map_congr_left
  intro c _
  by_cases hc : c = ','
  · simp [hc]
  · simp [hc]

/-- C3 (amended): a row whose pressure is missing or empty, whose pressure
fails to parse after `','` → `'.'` normalization, whose coefficient is
missing, or whose coefficient — parsed as is, with no comma normalization —
fails to parse, is silently skipped by the grouping loop; and the pressure
parse accepts `','` and `'.'` interchangeably (normalizing the pressure text
changes nothing). -/
theorem C3_grouper_parsing (groups : List (String × List (ℚ × ℚ)))
    (row row2 : Row) (s : String) :
    (dictGetD row "Tire pressure [bar]" (some (PyVal.str "")) =
        some (PyVal.str "") → groupStep groups row = groups) ∧
    (dictGetD row "Tire pressure [bar]" (some (PyVal.str "")) =
        some (PyVal.str s) → parseDecimal (commaToDot s) = none →
      groupStep groups row = groups) ∧
    (dictGetD row "C_rr" none = none → groupStep groups row = groups) ∧
    (dictGetD row "C_rr" none = some (PyVal.str s) → parseDecimal s = none →
      groupStep groups row = groups) ∧
    (dictGetD row2 "Tire name / type" (some (PyVal.str "")) =
        dictGetD row "Tire name / type" (some (PyVal.str "")) →
      dictGetD row2 "C_rr" none = dictGetD row "C_rr" none →
      dictGetD row "Tire pressure [bar]" (some (PyVal.str "")) =
        some (PyVal.str s) →
      dictGetD row2 "Tire pressure [bar]" (some (PyVal.str "")) =
        some (PyVal.str (commaToDot s)) →
      groupStep groups row2 = groupStep groups row) := by
  refine ⟨?_, ?_, ?_, ?_, ?_⟩
  · intro hp
    simp [groupStep, hp, pyStrD, pyStr, commaToDot]
  · intro hp hparse
    simp only [groupStep, hp, pyStrD, pyStr]
    by_cases hemp : commaToDot s = ""
    · simp [hemp]
    · rcases hcv : dictGetD row "C_rr" none with _ | v
      · simp [hemp, hcv]
      · simp [hemp, hcv, hparse]
  · intro hc
    simp [groupStep, hc]
  · intro hc hparse
    simp only [groupStep, hc]
    by_cases hemp :
        commaToDot (pyStrD (dictGetD row "Tire pressure [bar]"
          (some (PyVal.str "")))) = ""
    · simp [hemp]
    · simp only [hemp, pyFloat]
      rcases hpp : parseDecimal (commaToDot (pyStrD (dictGetD row
          "Tire pressure [bar]" (some (PyVal.str ""))))) with _ | p
      · simp [hparse]
      · simp [hparse]
  · intro hname hcrr hp hp2
    simp only [groupStep, hname, hcrr, hp, hp2, pyStrD, pyStr,
      commaToDot_idem]

/-- C3 counterexample: a row whose coefficient is written `"0,07"` is
silently dropped (its group never forms), while the identical row written
`"0.07"` is plotted — the coefficient is *not* parsed with `','` accepted as
a decimal separator, contrary to the claim. -/
theorem C3_grouper_parsing_counterexample :
    tire_groups [rowCommaCrr] = [] ∧
    tire_groups [rowDotCrr] = [("A", [(2, 7 / 100)])] :=
  ⟨by with_unfolding_all decide, by with_unfolding_all decide⟩

/-- C3 witness: the unparseable-coefficient case applied to the concrete
comma-coefficient row. -/
theorem C3_grouper_parsing_witness :
    dictGetD rowCommaCrr "C_rr" none = some (PyVal.str "0,07") ∧
    parseDecimal "0,07" = none ∧
    groupStep [] rowCommaCrr = [] :=
  ⟨by with_unfolding_all decide, by with_unfolding_all decide,
    (C3_grouper_parsing [] rowCommaCrr rowCommaCrr "0,07").2.2.2.1
      (by with_unfolding_all decide) (by with_unfolding_all decide)⟩

/-! ## C1: the Physics Engine's algorithm and concrete scenario -/

theorem compute_result_ok (idle load : List ℚ) (m : ℚ)
    (h1 : idle ≠ []) (h2 : load ≠ []) (h3 : m ≠ 0) :
    compute_result idle load m = Except.ok [
      ("Speed [m/s]", some (PyVal.num (pi_val * d * (rpm / 60)))),
      ("Mean idle current [A]", some (PyVal.num (idle.sum / idle.length))),
      ("Mean load current [A]", some (PyVal.num (load.sum / load.length))),
      ("Weight on lever [kg]", some (PyVal.num m)),
      ("Effective weight on tire [kg]",
        some (PyVal.num (m * l_hang / l_reifen))),
      ("P_0 [W]", some (PyVal.num (V_supply * (idle.sum / idle.length)))),
      ("P_load [W]", some (PyVal.num (V_supply * (load.sum / load.length)))),
      ("P_rr [W]", some (PyVal.num (V_supply * (load.sum / load.length) -
        V_supply * (idle.sum / idle.length)))),
      ("C_rr", some (PyVal.num ((V_supply * (load.sum / load.length) -
        V_supply * (idle.sum / idle.length)) /
        (m * l_hang / l_reifen * g * (pi_val * d * (rpm / 60))))))] := by
  have hl1 : ¬(idle.length = 0) := by simpa using h1
  have hl2 : ¬(load.length = 0) := by simpa using h2
  have hv : pi_val * d * (rpm / 60) ≠ 0 := by norm_num [pi_val, d, rpm]
  have hme : m * l_hang / l_reifen ≠ 0 :=
    div_ne_zero (mul_ne_zero h3 (by norm_num [l_hang])) (by norm_num [l_reifen])
  have hdiv : ¬(m * l_hang / l_reifen * g * (pi_val * d * (rpm / 60)) = 0) :=
    mul_ne_zero (mul_ne_zero hme (by norm_num [g])) hv
  simp [compute_result, hl1, hl2, hdiv]
  rfl

theorem compute_result_scenario :
    compute_result idle0 load0 2 = Except.ok [
      ("Speed [m/s]", some (PyVal.num (pi_val * d * (rpm / 60)))),
      ("Mean idle current [A]", some (PyVal.num (1/2))),
      ("Mean load current [A]", some (PyVal.num (6/5))),
      ("Weight on lever [kg]", some (PyVal.num 2)),
      ("Effective weight on tire [kg]", some (PyVal.num (875/179))),
      ("P_0 [W]", some (PyVal.num 6)),
      ("P_load [W]", some (PyVal.num (72/5))),
      ("P_rr [W]", some (PyVal.num (42/5))),
      ("C_rr", some (PyVal.num ((42/5) /
        ((875/179) * g * (pi_val * d * (rpm / 60))))))] := by
  rw [compute_result_ok idle0 load0 2 (by decide) (by decide) (by norm_num)]
  have hi : idle0.sum / (idle0.length : ℚ) = 1/2 := by
    norm_num [idle0]
  have hl : load0.sum / (load0.length : ℚ) = 6/5 := by
    norm_num [load0]
  rw [hi, hl]
  norm_num [l_hang, l_reifen, V_supply]

/-- C1 (amended): for non-empty current lists and non-zero hanging mass the
Physics Engine returns exactly the record of the fixed algorithm
(v = π·d·(rpm/60), the two arithmetic means, m_eff = m·L_hang/L_tire,
P0 = 12·I0, PL = 12·IL, P_rr = PL − P0, C_rr = P_rr/(m_eff·g·v)); on the
concrete scenario it yields I0 = 0.500, IL = 1.200, P0 = 6.000, PL = 14.400,
P_rr = 8.400 as claimed, but v ≈ 7.1935 (not 2.2926), m_eff = 875/179 ≈
4.8883 (not 4.8955) and C_rr ≈ 0.024351 (not 0.07656). -/
theorem C1_physics_engine (idle load : List ℚ) (m : ℚ)
    (h1 : idle ≠ []) (h2 : load ≠ []) (h3 : m ≠ 0) :
    (compute_result idle load m = Except.ok [
      ("Speed [m/s]", some (PyVal.num (pi_val * d * (rpm / 60)))),
      ("Mean idle current [A]", some (PyVal.num (idle.sum / idle.length))),
      ("Mean load current [A]", some (PyVal.num (load.sum / load.length))),
      ("Weight on lever [kg]", some (PyVal.num m)),
      ("Effective weight on tire [kg]",
        some (PyVal.num (m * l_hang / l_reifen))),
      ("P_0 [W]", some (PyVal.num (V_supply * (idle.sum / idle.length)))),
      ("P_load [W]", some (PyVal.num (V_supply * (load.sum / load.length)))),
      ("P_rr [W]", some (PyVal.num (V_supply * (load.sum / load.length) -
        V_supply * (idle.sum / idle.length)))),
      ("C_rr", some (PyVal.num ((V_supply * (load.sum / load.length) -
        V_supply * (idle.sum / idle.length)) /
        (m * l_hang / l_reifen * g * (pi_val * d * (rpm / 60))))))]) ∧
    (compute_result idle0 load0 2 = Except.ok [
      ("Speed [m/s]", some (PyVal.num (pi_val * d * (rpm / 60)))),
      ("Mean idle current [A]", some (PyVal.num (1/2))),
      ("Mean load current [A]", some (PyVal.num (6/5))),
      ("Weight on lever [kg]", some (PyVal.num 2)),
      ("Effective weight on tire [kg]", some (PyVal.num (875/179))),
      ("P_0 [W]", some (PyVal.num 6)),
      ("P_load [W]", some (PyVal.num (72/5))),
      ("P_rr [W]", some (PyVal.num (42/5))),
      ("C_rr", some (PyVal.num ((42/5) /
        ((875/179) * g * (pi_val * d * (rpm / 60))))))]) ∧
    |pi_val * d * (rpm / 60) - 71935/10000| < 1/1000 ∧
    |(875 : ℚ)/179 - 48883/10000| < 1/1000 ∧
    |(42/5) / ((875/179) * g * (pi_val * d * (rpm / 60))) - 24351/1000000| <
      1/1000 := by
  refine ⟨compute_result_ok idle load m h1 h2 h3, compute_result_scenario,
    ?_, ?_, ?_⟩
  · rw [abs_sub_lt_iff]
    norm_num [pi_val, d, rpm]
  · rw [abs_sub_lt_iff]
    norm_num
  · rw [abs_sub_lt_iff]
    norm_num [pi_val, d, rpm, g]

/-- C1 witness: the general algorithm equation applied to the scenario. -/
theorem C1_physics_engine_witness :
    idle0 ≠ [] ∧ load0 ≠ [] ∧ (2 : ℚ) ≠ 0 ∧
    compute_result idle0 load0 2 = Except.ok [
      ("Speed [m/s]", some (PyVal.num (pi_val * d * (rpm / 60)))),
      ("Mean idle current [A]", some (PyVal.num (idle0.sum / idle0.length))),
      ("Mean load current [A]", some (PyVal.num (load0.sum / load0.length))),
      ("Weight on lever [kg]", some (PyVal.num 2)),
      ("Effective weight on tire [kg]",
        some (PyVal.num (2 * l_hang / l_reifen))),
      ("P_0 [W]", some (PyVal.num (V_supply * (idle0.sum / idle0.length)))),
      ("P_load [W]", some (PyVal.num (V_supply * (load0.sum / load0.length)))),
      ("P_rr [W]", some (PyVal.num (V_supply * (load0.sum / load0.length) -
        V_supply * (idle0.sum / idle0.length)))),
      ("C_rr", some (PyVal.num ((V_supply * (load0.sum / load0.length) -
        V_supply * (idle0.sum / idle0.length)) /
        (2 * l_hang / l_reifen * g * (pi_val * d * (rpm / 60))))))] :=
  ⟨by decide, by decide, by norm_num,
    (C1_physics_engine idle0 load0 2 (by decide) (by decide) (by norm_num)).1⟩

/-- C1 counterexample: on the claim's own scenario the code's speed exceeds
7 m/s (the claim says ≈ 2.2926), its effective mass is 875/179 ≈ 4.8883 —
more than 0.005 away from the claimed 4.8955 — and its coefficient is below
0.03 (the claim says ≈ 0.07656). -/
theorem C1_physics_engine_counterexample :
    List.lookup "Speed [m/s]" ((compute_result idle0 load0 2).toOption.getD [])
      = some (some (PyVal.num (pi_val * d * (rpm / 60)))) ∧
    7 < pi_val * d * (rpm / 60) ∧
    List.lookup "Effective weight on tire [kg]"
      ((compute_result idle0 load0 2).toOption.getD [])
      = some (some (PyVal.num (875/179))) ∧
    ¬ |(875 : ℚ)/179 - 48955/10000| < 5/1000 ∧
    List.lookup "C_rr" ((compute_result idle0 load0 2).toOption.getD [])
      = some (some (PyVal.num ((42/5) /
          ((875/179) * g * (pi_val * d * (rpm / 60)))))) ∧
    (42/5) / ((875/179) * g * (pi_val * d * (rpm / 60))) < 3/100 := by
  rw [compute_result_scenario]
  refine ⟨rfl, ?_, rfl, ?_, rfl, ?_⟩
  · norm_num [pi_val, d, rpm]
  · rw [abs_sub_lt_iff]
    norm_num
  · norm_num [pi_val, d, rpm, g]

/-! ## C8: division by zero propagates as an error -/

/-- C8: with a zero hanging mass the divisor `m_eff·g·v` is zero, the
Physics Engine raises `ZeroDivisionError` instead of returning a value, and
`on_calculate` — whose handler catches only `ValueError` — lets that error
propagate to its caller uncaught, with the state unchanged (no record, no
silent infinity). -/
theorem C8_zero_divisor_propagates (idle load : List ℚ) (e : Entries)
    (s : AppState) (h1 : idle ≠ []) (h2 : load ≠ [])
    (hi : parse_float_list e.idle = Except.ok idle)
    (hl : parse_float_list e.load = Except.ok load)
    (hw : pyStrip (commaToDot e.weight) = "0") :
    compute_result idle load 0 = Except.error PyErr.zeroDivision ∧
    on_calculate e s = (s, CalcOutcome.uncaught PyErr.zeroDivision) := by
  have hl1 : ¬(idle.length = 0) := by simpa using h1
  have hl2 : ¬(load.length = 0) := by simpa using h2
  have hzero : compute_result idle load 0 = Except.error PyErr.zeroDivision := by
    simp [compute_result, hl1, hl2, exceptThrow]
  refine ⟨hzero, ?_⟩
  have h0 : parseDecimal "0" = some 0 := by with_unfolding_all decide
  simp [on_calculate, hi, hl, hw, h0, hzero, exceptBind_ok, exceptBind_err,
    exceptThrow, exceptPure]

/-- C8 witness: the theorem applied to the zero-weight entries on the
fresh-start state. -/
theorem C8_zero_divisor_propagates_witness :
    compute_result [1, 1] [2] 0 = Except.error PyErr.zeroDivision ∧
    on_calculate entriesZeroWeight freshState =
      (freshState, CalcOutcome.uncaught PyErr.zeroDivision) :=
  C8_zero_divisor_propagates [1, 1] [2] entriesZeroWeight freshState
    (by decide) (by decide) (by with_unfolding_all decide)
    (by with_unfolding_all decide) (by with_unfolding_all decide)

/-! ## C5: the Formatter's contract -/

theorem commaToDot_no_comma (s : String) : ',' ∉ (commaToDot s).data := by
  intro hmem
  have hmem2 : ',' ∈ s.data.map (fun c => if c = ',' then '.' else c) := hmem
  rw [List.mem_map] at hmem2
  obtain ⟨c, _, hc⟩ := hmem2
  by_cases h : c = ','
  · rw [if_pos h] at hc
    exact absurd hc (by decide)
  · rw [if_neg h] at hc
    exact h hc

theorem commaToDot_eq_self {s : String} (h : ',' ∉ s.data) :
    commaToDot s = s := by
  unfold commaToDot
  have h2 : s.data.map (fun c => if c = ',' then '.' else c) = s.data.map id := by
    apply List.map_congr_left
    intro a ha
    have : a ≠ ',' := fun he => h (he ▸ ha)
    simp [this]
  rw [h2, List.map_id]

theorem digitChar10_ne (n : Nat) : digitChar10 n ≠ '.' ∧ digitChar10 n ≠ ',' := by
  unfold digitChar10
  split_ifs <;> exact ⟨by decide, by decide⟩

theorem natDecimalAux_chars :
    ∀ f n c, c ∈ natDecimalAux f n → c ≠ '.' ∧ c ≠ ',' := by
  intro f
  induction f with
  | zero => intro n c hc; simp [natDecimalAux] at hc
  | succ f ih =>
    intro n c hc
    unfold natDecimalAux at hc
    by_cases h : n < 10
    · rw [if_pos h] at hc
      simp at hc
      exact hc ▸ digitChar10_ne n
    · rw [if_neg h] at hc
      rcases List.mem_append.mp hc with h1 | h2
      · exact ih _ _ h1
      · simp at h2
        exact h2 ▸ digitChar10_ne (n % 10)

theorem padDigits_chars :
    ∀ w n c, c ∈ padDigits w n → c ≠ '.' ∧ c ≠ ',' := by
  intro w
  induction w with
  | zero => intro n c hc; simp [padDigits] at hc
  | succ w ih =>
    intro n c hc
    unfold padDigits at hc
    rcases List.mem_append.mp hc with h1 | h2
    · exact ih _ _ h1
    · simp at h2
      exact h2 ▸ digitChar10_ne (n % 10)

theorem padDigits_length : ∀ w n, (padDigits w n).length = w := by
  intro w
  induction w with
  | zero => intro n; rfl
  | succ w ih => intro n; simp [padDigits, ih]

theorem takeWhile_append_of_sat {α : Type} (p : α → Bool) (l1 l2 : List α)
    (a : α) (h1 : ∀ c ∈ l1, p c = true) (h2 : p a = false) :
    (l1 ++ a :: l2).takeWhile p = l1 := by
  induction l1 with
  | nil => simp [List.takeWhile_cons, h2]
  | cons x xs ih =>
    have hx := h1 x (List.mem_cons_self x xs)
    simp only [List.cons_append, List.takeWhile_cons, hx, if_true]
    rw [ih (fun c hc => h1 c (List.mem_cons_of_mem _ hc))]

theorem formatFixed_data (q : ℚ) (dp : Nat) (hdp : dp ≠ 0) :
    (formatFixed q dp).data =
      (if q < 0 then ['-'] else []) ++
        natDecimal ((roundHalfEven (|q| * 10 ^ dp)).toNat / 10 ^ dp) ++
        '.' :: padDigits dp ((roundHalfEven (|q| * 10 ^ dp)).toNat % 10 ^ dp) := by
  by_cases hq : q < 0 <;> simp [formatFixed, hdp, hq, String.data_append]

theorem formatFixed_no_comma (q : ℚ) (dp : Nat) :
    ',' ∉ (formatFixed q dp).data := by
  intro hmem
  by_cases hdp : dp = 0
  · subst hdp
    by_cases hq : q < 0 <;>
      simp only [formatFixed, hq, if_true, if_false, ite_true, ite_false,
        pow_zero, String.data_append, List.append_nil] at hmem
    · rcases List.mem_append.mp hmem with h3 | h4
      · simp at h3
      · exact (natDecimalAux_chars _ _ _ h4).2 rfl
    · rcases List.mem_append.mp hmem with h3 | h4
      · simp at h3
      · exact (natDecimalAux_chars _ _ _ h4).2 rfl
  · rw [formatFixed_data q dp hdp] at hmem
    rcases List.mem_append.mp hmem with h1 | h2
    · rcases List.mem_append.mp h1 with h3 | h4
      · by_cases hq : q < 0 <;> simp [hq] at h3
      · exact (natDecimalAux_chars _ _ _ h4).2 rfl
    · rcases List.mem_cons.mp h2 with h5 | h6
      · exact absurd h5 (by decide)
      · exact (padDigits_chars _ _ _ h6).2 rfl

theorem commaToDot_formatFixed (q : ℚ) (dp : Nat) :
    commaToDot (formatFixed q dp) = formatFixed q dp :=
  commaToDot_eq_self (formatFixed_no_comma q dp)

theorem postDotLen_formatFixed (q : ℚ) (dp : Nat) (hdp : dp ≠ 0) :
    postDotLen (formatFixed q dp) = dp := by
  unfold postDotLen
  rw [formatFixed_data q dp hdp]
  simp only [List.reverse_append, List.reverse_cons, List.append_assoc,
    List.singleton_append, List.cons_append]
  have hsat : ∀ c ∈ (padDigits dp
      ((roundHalfEven (|q| * 10 ^ dp)).toNat % 10 ^ dp)).reverse,
      (fun c => decide (c ≠ '.')) c = true := by
    intro c hc
    have := (padDigits_chars _ _ _ (List.mem_reverse.mp hc)).1
    simpa using this
  have hdot : (fun c => decide (c ≠ '.')) '.' = false := by simp
  rw [takeWhile_append_of_sat _ _ _ '.' hsat hdot]
  simp [padDigits_length]

theorem format_value_none_eq (k : String) : format_value k none = "" := rfl

theorem format_value_str_eq (k : String) (s : String) :
    format_value k (some (PyVal.str s)) = commaToDot s := by
  show (if s = "" then "" else commaToDot s) = commaToDot s
  by_cases h : s = ""
  · subst h; rfl
  · rw [if_neg h]

theorem format_value_num_eq (k : String) (q : ℚ) :
    format_value k (some (PyVal.num q)) =
      formatFixed q ((List.lookup k decimal_places).getD 3) := by
  unfold format_value
  exact commaToDot_formatFixed q _

/-- C5: the Formatter maps an absent or empty value to `""`; renders a number
with 3 decimal places for the mean currents, the speed and the two weight
fields, 2 for the three power fields and the tire pressure, 6 for `C_rr`,
and 3 for any field outside the `decimal_places` dict; a fixed rendering
with `dp` places shows exactly `dp` digits after a `'.'` and never contains
`','`; and a string value is returned with every `','` replaced by `'.'` —
including non-numeric text fields such as the tire name. -/
theorem C5_formatter (k : String) (q : ℚ)
    (hk : List.lookup k decimal_places = none) :
    format_value k none = "" ∧
    format_value k (some (PyVal.str "")) = "" ∧
    (∀ t : String, format_value k (some (PyVal.str t)) = commaToDot t) ∧
    format_value "Mean idle current [A]" (some (PyVal.num q)) = formatFixed q 3 ∧
    format_value "Mean load current [A]" (some (PyVal.num q)) = formatFixed q 3 ∧
    format_value "Speed [m/s]" (some (PyVal.num q)) = formatFixed q 3 ∧
    format_value "Weight on lever [kg]" (some (PyVal.num q)) = formatFixed q 3 ∧
    format_value "Effective weight on tire [kg]" (some (PyVal.num q)) =
      formatFixed q 3 ∧
    format_value "P_0 [W]" (some (PyVal.num q)) = formatFixed q 2 ∧
    format_value "P_load [W]" (some (PyVal.num q)) = formatFixed q 2 ∧
    format_value "P_rr [W]" (some (PyVal.num q)) = formatFixed q 2 ∧
    format_value "Tire pressure [bar]" (some (PyVal.num q)) = formatFixed q 2 ∧
    format_value "C_rr" (some (PyVal.num q)) = formatFixed q 6 ∧
    format_value k (some (PyVal.num q)) = formatFixed q 3 ∧
    (∀ dp : Nat, dp ≠ 0 → postDotLen (formatFixed q dp) = dp ∧
      ',' ∉ (formatFixed q dp).data ∧ '.' ∈ (formatFixed q dp).data) := by
  refine ⟨rfl, rfl, fun t => format_value_str_eq k t, ?_, ?_, ?_, ?_, ?_, ?_,
    ?_, ?_, ?_, ?_, ?_, ?_⟩
  · rw [format_value_num_eq,
      show (List.lookup "Mean idle current [A]" decimal_places).getD 3 = 3
        from by decide]
  · rw [format_value_num_eq,
      show (List.lookup "Mean load current [A]" decimal_places).getD 3 = 3
        from by decide]
  · rw [format_value_num_eq,
      show (List.lookup "Speed [m/s]" decimal_places).getD 3 = 3
        from by decide]
  · rw [format_value_num_eq,
      show (List.lookup "Weight on lever [kg]" decimal_places).getD 3 = 3
        from by decide]
  · rw [format_value_num_eq,
      show (List.lookup "Effective weight on tire [kg]"
        decimal_places).getD 3 = 3 from by decide]
  · rw [format_value_num_eq,
      show (List.lookup "P_0 [W]" decimal_places).getD 3 = 2 from by decide]
  · rw [format_value_num_eq,
      show (List.lookup "P_load [W]" decimal_places).getD 3 = 2 from by decide]
  · rw [format_value_num_eq,
      show (List.lookup "P_rr [W]" decimal_places).getD 3 = 2 from by decide]
  · rw [format_value_num_eq,
      show (List.lookup "Tire pressure [bar]" decimal_places).getD 3 = 2
        from by decide]
  · rw [format_value_num_eq,
      show (List.lookup "C_rr" decimal_places).getD 3 = 6 from by decide]
  · rw [format_value_num_eq, hk]
    rfl
  · intro dp hdp
    refine ⟨postDotLen_formatFixed q dp hdp, formatFixed_no_comma q dp, ?_⟩
    rw [formatFixed_data q dp hdp]
    exact List.mem_append_right _ (List.mem_cons_self _ _)

/-- C5 witness: applied at the unlisted field `"Idle currents [A]"`. -/
theorem C5_formatter_witness :
    List.lookup "Idle currents [A]" decimal_places = none ∧
    format_value "Idle currents [A]" (some (PyVal.num (3/2))) =
      formatFixed (3/2) 3 := by
  have h := C5_formatter "Idle currents [A]" (3/2) (by decide)
  exact ⟨by decide, h.2.2.2.2.2.2.2.2.2.2.2.2.2.1⟩

/-! ## C4: style cloning on append -/

theorem setCell_cell (ws : Worksheet) (r c : Nat) (cl : Cell) (r' c' : Nat) :
    (ws.setCell r c cl).cell r' c' =
      if r' = r ∧ c' = c then cl else ws.cell r' c' := rfl

theorem writeCellStep_cell_other (t n : Nat) (last : Row) (ws : Worksheet)
    (kc : String × Nat) (r c : Nat) (h : ¬(r = n ∧ c = kc.2)) :
    (writeCellStep t n last ws kc).cell r c = ws.cell r c := by
  simp only [writeCellStep]
  split
  · simp only [Worksheet.setStyle, Worksheet.writeValue, setCell_cell]
    rw [if_neg h, if_neg h]
  · simp only [Worksheet.writeValue, setCell_cell]
    rw [if_neg h]

theorem writeCellStep_cell_self (t n : Nat) (last : Row) (ws : Worksheet)
    (k : String) (c : Nat) (ht : t ≠ n) (hfresh : (ws.cell n c).style = none) :
    (writeCellStep t n last ws (k, c)).cell n c =
      { value := some (PyVal.str
          (format_value k (dictGetD last k (some (PyVal.str ""))))),
        style := (ws.cell t c).style } := by
  simp only [writeCellStep]
  have htc : ((ws.writeValue n c (some (PyVal.str
      (format_value k (dictGetD last k (some (PyVal.str ""))))))).cell t c)
      = ws.cell t c := by
    simp only [Worksheet.writeValue, setCell_cell]
    rw [if_neg (fun hand => ht hand.1)]
  rw [htc]
  split
  · next h =>
    simp [Worksheet.setStyle, Worksheet.writeValue, setCell_cell]
  · next h =>
    simp [Worksheet.writeValue, setCell_cell,
      Option.not_isSome_iff_eq_none.mp h, hfresh]

theorem writeRowCells_frame (t n : Nat) (last : Row) :
    ∀ (items : List (String × Nat)) (ws : Worksheet) (r c : Nat), r ≠ n →
      (writeRowCells t n last items ws).cell r c = ws.cell r c := by
  intro items
  induction items with
  | nil => intro ws r c _; rfl
  | cons kc rest ih =>
    intro ws r c hr
    show (writeRowCells t n last rest (writeCellStep t n last ws kc)).cell r c
      = ws.cell r c
    rw [ih _ r c hr,
      writeCellStep_cell_other t n last ws kc r c (fun hand => hr hand.1)]

theorem writeRowCells_untouched_col (t n : Nat) (last : Row) :
    ∀ (items : List (String × Nat)) (ws : Worksheet) (c : Nat),
      c ∉ items.map Prod.snd →
      (writeRowCells t n last items ws).cell n c = ws.cell n c := by
  intro items
  induction items with
  | nil => intro ws c _; rfl
  | cons kc rest ih =>
    intro ws c hc
    have hc1 : c ≠ kc.2 := by
      intro h
      exact hc (by simp [h])
    have hc2 : c ∉ rest.map Prod.snd := by
      intro h
      exact hc (by simp [h])
    show (writeRowCells t n last rest (writeCellStep t n last ws kc)).cell n c
      = ws.cell n c
    rw [ih _ c hc2,
      writeCellStep_cell_other t n last ws kc n c (fun hand => hc1 hand.2)]

theorem writeRowCells_written_cell (t n : Nat) (last : Row) (ht : t ≠ n) :
    ∀ (items : List (String × Nat)) (ws : Worksheet) (k : String) (c : Nat),
      (items.map Prod.snd).Nodup → (k, c) ∈ items →
      ((ws.cell n c).style = none) →
      (writeRowCells t n last items ws).cell n c =
        { value := some (PyVal.str
            (format_value k (dictGetD last k (some (PyVal.str ""))))),
          style := (ws.cell t c).style } := by
  intro items
  induction items with
  | nil => intro ws k c _ hmem _; simp at hmem
  | cons kc rest ih =>
    intro ws k c hnd hmem hfresh
    rw [List.map_cons, List.nodup_cons] at hnd
    have hnd' := hnd
    rcases List.mem_cons.mp hmem with hhead | htail
    · subst hhead
      show (writeRowCells t n last rest
        (writeCellStep t n last ws (k, c))).cell n c = _
      rw [writeRowCells_untouched_col t n last rest _ c hnd'.1]
      exact writeCellStep_cell_self t n last ws k c ht hfresh
    · have hcc : c ≠ kc.2 := by
        intro he
        exact hnd'.1 (he ▸ (List.mem_map.mpr ⟨(k, c), htail, rfl⟩))
      have hstep : (writeCellStep t n last ws kc).cell n c = ws.cell n c :=
        writeCellStep_cell_other t n last ws kc n c (fun hand => hcc hand.2)
      show (writeRowCells t n last rest
        (writeCellStep t n last ws kc)).cell n c = _
      rw [ih _ k c hnd'.2 htail (by rw [hstep]; exact hfresh)]
      congr 2
      exact writeCellStep_cell_other t n last ws kc t c
        (fun hand => ht hand.1)

theorem writeHeaderStep_style (ws : Worksheet) (kc : String × Nat) (r c : Nat) :
    ((writeHeaderStep ws kc).cell r c).style = (ws.cell r c).style := by
  unfold writeHeaderStep Worksheet.writeValue
  rw [setCell_cell]
  split_ifs with h
  · rw [h.1, h.2]
  · rfl

theorem writeHeader_style (ws : Worksheet) (r c : Nat) :
    ((writeHeader ws).cell r c).style = (ws.cell r c).style := by
  unfold writeHeader
  generalize fieldCols = items
  induction items generalizing ws with
  | nil => rfl
  | cons kc rest ih =>
    show ((rest.foldl writeHeaderStep (writeHeaderStep ws kc)).cell r c).style = _
    rw [ih (writeHeaderStep ws kc), writeHeaderStep_style]

theorem writeHeader_maxRow (ws : Worksheet) (h : ws.maxRow = 1) :
    (writeHeader ws).maxRow = 1 := by
  unfold writeHeader
  generalize fieldCols = items
  induction items generalizing ws with
  | nil => exact h
  | cons kc rest ih =>
    show (rest.foldl writeHeaderStep (writeHeaderStep ws kc)).maxRow = 1
    exact ih _ (by simp [writeHeaderStep, Worksheet.writeValue,
      Worksheet.setCell, h])

/-- C4 (amended): appending to an existing spreadsheet clones styles from a
template row that is row 2 (the first data row) when `max_row ≥ 2`, and row 1
(the header) when `max_row = 1`: column by column, the newly written cell's
style equals the template cell's style (only styled template cells are
copied, and an unstyled template leaves the fresh cell's default style,
which is the same thing).  In particular, when no data row exists but the
header row carries styling, that styling *is* cloned onto the new row. -/
theorem C4_append_style_cloning (ws : Worksheet) (last : Row) (k : String)
    (c : Nat) (hkc : (k, c) ∈ fieldCols)
    (hfresh : (ws.cell (ws.maxRow + 1) c).style = none) :
    (2 ≤ ws.maxRow →
      ((append_row ws last).cell (ws.maxRow + 1) c).style =
        (ws.cell 2 c).style) ∧
    (ws.maxRow = 1 →
      ((append_row ws last).cell 2 c).style = (ws.cell 1 c).style) := by
  constructor
  · intro h2
    simp only [append_row]
    rw [if_neg (show ¬(ws.maxRow = 1 ∧ rowOneAllNone ws = true) from
      fun hand => absurd hand.1 (by omega))]
    rw [if_pos h2]
    rw [writeRowCells_written_cell 2 (ws.maxRow + 1) last (by omega) fieldCols
      ws k c (by decide) hkc hfresh]
  · intro h1
    simp only [append_row]
    rw [h1] at hfresh
    rw [show (1 : Nat) + 1 = 2 from rfl] at hfresh
    by_cases hcond : ws.maxRow = 1 ∧ rowOneAllNone ws = true
    · rw [if_pos hcond]
      have hmr : (writeHeader ws).maxRow = 1 := writeHeader_maxRow ws h1
      rw [hmr]
      rw [if_neg (by omega)]
      rw [show (1 : Nat) + 1 = 2 from rfl]
      have hfresh2 : ((writeHeader ws).cell 2 c).style = none := by
        rw [writeHeader_style]
        exact hfresh
      rw [writeRowCells_written_cell 1 2 last (by omega) fieldCols
        (writeHeader ws) k c (by decide) hkc hfresh2]
      simp [writeHeader_style]
    · rw [if_neg hcond]
      rw [h1]
      rw [if_neg (by omega)]
      rw [show (1 : Nat) + 1 = 2 from rfl]
      rw [writeRowCells_written_cell 1 2 last (by omega) fieldCols
        ws k c (by decide) hkc hfresh]

/-- C4 counterexample: a spreadsheet whose sheet has a styled header row and
no data rows (`max_row = 1`); appending a record clones the header's style
onto the new row's first cell — the claim says no style cloning occurs when
no data row exists. -/
theorem C4_append_style_cloning_counterexample :
    wsHeaderOnly.maxRow = 1 ∧
    ((append_row wsHeaderOnly rowA).cell 2 1).style = some headerStyleTok := by
  constructor
  · rfl
  · with_unfolding_all decide

/-- C4 witness: on a one-data-row spreadsheet the appended row's first cell
takes row 2's style. -/
theorem C4_append_style_cloning_witness :
    2 ≤ (create_from [rowA]).maxRow ∧
    ((append_row (create_from [rowA]) rowA).cell
        ((create_from [rowA]).maxRow + 1) 1).style =
      ((create_from [rowA]).cell 2 1).style :=
  ⟨by with_unfolding_all decide,
    (C4_append_style_cloning (create_from [rowA]) rowA "Tire name / type" 1
      (by decide) (by with_unfolding_all decide)).1
      (by with_unfolding_all decide)⟩

/-! ## C6: full mirror regeneration -/

theorem splitAnyP_no_sep (p : Char → Bool) :
    ∀ f : List Char, (∀ c ∈ f, p c = false) → splitAnyP p f = [f] := by
  intro f
  induction f with
  | nil => intro _; rfl
  | cons c cs ih =>
    intro h
    have hc : p c = false := h c (List.mem_cons_self c cs)
    have hr : splitAnyP p cs = [cs] :=
      ih (fun x hx => h x (List.mem_cons_of_mem _ hx))
    simp only [splitAnyP, hr, hc]
    rfl

theorem splitAnyP_append (p : Char → Bool) (a : Char) (ha : p a = true) :
    ∀ (f rest : List Char), (∀ c ∈ f, p c = false) →
      splitAnyP p (f ++ a :: rest) = f :: splitAnyP p rest := by
  intro f
  induction f with
  | nil =>
    intro rest _
    simp only [List.nil_append, splitAnyP, ha]
    rfl
  | cons c cs ih =>
    intro rest h
    have hc : p c = false := h c (List.mem_cons_self c cs)
    have hr := ih rest (fun x hx => h x (List.mem_cons_of_mem _ hx))
    simp only [List.cons_append, splitAnyP, hc]
    rw [show cs.append (a :: rest) = cs ++ a :: rest from rfl, hr]
    rfl

theorem splitCh_joinCh :
    ∀ ls : List (List Char), ls ≠ [] → (∀ l ∈ ls, ';' ∉ l) →
      splitCh ';' (joinCh ';' ls) = ls := by
  intro ls
  induction ls with
  | nil => intro h _; exact absurd rfl h
  | cons f rest ih =>
    intro _ hall
    have hf : ∀ c ∈ f, (fun c => decide (c = ';')) c = false := by
      intro c hc
      simp only [decide_eq_false_iff_not]
      intro he
      exact hall f (List.mem_cons_self f rest) (he ▸ hc)
    cases rest with
    | nil =>
      show splitAnyP (fun c => c = ';') (joinCh ';' [f]) = [f]
      simp only [joinCh]
      exact splitAnyP_no_sep _ f hf
    | cons g t =>
      show splitAnyP (fun c => c = ';') (joinCh ';' (f :: g :: t)) = f :: g :: t
      simp only [joinCh]
      rw [splitAnyP_append _ ';' (by simp) f _ hf]
      have := ih (by simp) (fun l hl => hall l (List.mem_cons_of_mem f hl))
      rw [show splitAnyP (fun c => c = ';') (joinCh ';' (g :: t)) =
        splitCh ';' (joinCh ';' (g :: t)) from rfl, this]

theorem stringMk_data (s : String) : String.mk s.data = s := rfl

theorem csvField_eq_self (s : String)
    (h : s.data.any (fun c => c = ';' ∨ c = '"' ∨ c = '\n' ∨ c = '\r')
      = false) :
    csvField s = s := by
  unfold csvField
  rw [if_neg (fun hcond => absurd (h ▸ hcond) Bool.false_ne_true)]

theorem splitSemi_joinSemi (fields : List String) (hne : fields ≠ [])
    (hall : ∀ f ∈ fields,
      f.data.any (fun c => c = ';' ∨ c = '"' ∨ c = '\n' ∨ c = '\r') = false) :
    splitSemi (joinSemi fields) = fields := by
  unfold splitSemi joinSemi
  have hid : fields.map csvField = fields := by
    have hpt : ∀ f ∈ fields, csvField f = id f :=
      fun f hf => csvField_eq_self f (hall f hf)
    rw [List.map_congr_left hpt, List.map_id]
  rw [hid]
  rw [show (String.mk (joinCh ';' (fields.map String.data))).data =
    joinCh ';' (fields.map String.data) from rfl]
  rw [splitCh_joinCh (fields.map String.data)
    (by simpa using hne)
    (by
      intro l hl
      rw [List.mem_map] at hl
      obtain ⟨f, hf, rfl⟩ := hl
      intro hmem
      have := List.any_eq_false.mp (hall f hf) ';' hmem
      simp at this)]
  rw [List.map_map]
  have hpt2 : ∀ f ∈ fields, (String.mk ∘ String.data) f = id f :=
    fun f _ => stringMk_data f
  rw [List.map_congr_left hpt2, List.map_id]

/-- C6: the export's mirror regeneration is a pure function of the
spreadsheet's current non-empty data rows — it overwrites the mirror
completely (the prior mirror content never influences the result), producing
exactly N+1 semicolon-delimited lines for N data rows: a header line
splitting back into the 13 fixed field names in order, then one line per
data row whose `';'`-separated fields are exactly the Formatter's outputs
for that row (whenever those outputs contain no delimiter or quote
characters, which triggers no CSV quoting). -/
theorem C6_mirror_regeneration (s : AppState) (ws : Worksheet)
    (h : s.fs_xlsx = some (XFile.good ws)) :
    (on_go_to_excel s).1.fs_csv =
      some (mirror_lines (read_data_rows ws)) ∧
    (on_go_to_excel s).2 = ExportOutcome.ok ∧
    (mirror_lines (read_data_rows ws)).length =
      (read_data_rows ws).length + 1 ∧
    (mirror_lines (read_data_rows ws)).head? = some mirrorHeaderLine ∧
    splitSemi mirrorHeaderLine = FIELDNAMES ∧
    FIELDNAMES.length = 13 ∧
    (∀ r ∈ read_data_rows ws,
      (∀ k ∈ FIELDNAMES,
        (format_value k (dictGetD r k (some (PyVal.str "")))).data.any
          (fun c => c = ';' ∨ c = '"' ∨ c = '\n' ∨ c = '\r') = false) →
      splitSemi (mirrorRowLine r) =
        FIELDNAMES.map (fun k => format_value k (dictGetD r k
          (some (PyVal.str ""))))) ∧
    (∀ csv1 csv2 : Option (List String),
      (on_go_to_excel { s with fs_csv := csv1 }).1.fs_csv =
        (on_go_to_excel { s with fs_csv := csv2 }).1.fs_csv) := by
  refine ⟨?_, ?_, ?_, ?_, ?_, ?_, ?_, ?_⟩
  · simp [on_go_to_excel, h]
  · simp [on_go_to_excel, h]
  · simp [mirror_lines]
  · rfl
  · decide
  · decide
  · intro r _ hfmt
    unfold mirrorRowLine
    rw [splitSemi_joinSemi _ (by simp [FIELDNAMES]) (by
      intro f hf
      rw [List.mem_map] at hf
      obtain ⟨k, hk, rfl⟩ := hf
      exact hfmt k hk)]
  · intro csv1 csv2
    simp [on_go_to_excel, h]

/-- C6 witness: the mirror content produced for the one-row spreadsheet. -/
theorem C6_mirror_regeneration_witness :
    (on_go_to_excel oneRowState).1.fs_csv =
      some (mirror_lines (read_data_rows (create_from [rowA]))) ∧
    (mirror_lines (read_data_rows (create_from [rowA]))).length =
      (read_data_rows (create_from [rowA])).length + 1 :=
  ⟨(C6_mirror_regeneration oneRowState (create_from [rowA]) rfl).1,
    (C6_mirror_regeneration oneRowState (create_from [rowA]) rfl).2.2.1⟩

end RollingResistance
